import Mathlib

/-
Verification development for the agri-ai REST backend.

Shallow embedding of the three route files:
  - src/backend/server.js   (chatbot routes: POST /api/chatbot/chat, the
    AGRICULTURAL_KNOWLEDGE table and getFallbackResponse)
  - src/backend/routes/ai.js     (POST /api/ai/analyze/:analysisId)
  - src/backend/routes/images.js (POST /api/images/upload)

Conventions of the embedding:
  - JavaScript strings are Lean `String`; the character-level operations
    `toLowerCase` and `String.prototype.includes` are modelled over `.data`
    (`List Char`) with structurally recursive functions so that concrete
    instances reduce in the kernel.  `toLowerCase` is modelled as ASCII
    lowercasing (`Char.toLower`), which agrees with JavaScript on all the
    ASCII keywords the code matches against.
  - Request body fields that may be absent are `Option`; JavaScript
    truthiness of such a field is `Option.isSome` (the absent/empty cases
    collapse to `none`), and `if (!message)` on the string field `message`
    additionally rejects the empty string, which is kept explicit.
  - The document store is a plain list of records; `findById` searches by
    id only, `findOne({_id, user})` searches by id and owner, `save` is
    functional update (append for a freshly created document).
  - External capabilities are oracles passed as arguments: the OpenAI
    completion outcome is `Except Unit String` (throw or reply text), the
    classifier outcome is `Except String AnalysisPayload` (throw with a
    message, or a result payload), and `Math.random`-driven choice is a
    `Nat` draw.  Timestamps carry no information used by any route logic
    and are omitted.
-/

/-- Model of checking that `pat` starts the character list `cs`. -/
def leadsWith : List Char → List Char → Bool
  | [], _ => true
  | _ :: _, [] => false
  | p :: ps, c :: cs => p == c && leadsWith ps cs

/-- Model of occurrence of `pat` anywhere in the character list (the semantics
of JavaScript `String.prototype.includes`). -/
def includesSeq (pat : List Char) : List Char → Bool
  | [] => leadsWith pat []
  | c :: cs => leadsWith pat (c :: cs) || includesSeq pat cs

/-- Model of `s.includes(pat)` on JavaScript strings. -/
def strIncludes (s pat : String) : Bool :=
  includesSeq pat.data s.data

/-- Model of `s.toLowerCase()` as a character list (ASCII lowercasing). -/
def lowerChars (s : String) : List Char :=
  s.data.map Char.toLower

/-- Model of `s.toLowerCase()` returning a string. -/
def jsToLower (s : String) : String :=
  ⟨lowerChars s⟩

/-- Model of `Array.prototype.slice(-n)`: the last at most `n` elements. -/
def sliceLast (n : Nat) (l : List α) : List α :=
  l.drop (l.length - n)

/-- Entry of the AGRICULTURAL_KNOWLEDGE fallback table of server.js: a topic
category with its keyword triggers and candidate response strings. -/
structure KnowledgeCategory where
  name : String
  keywords : List String
  responses : List String
deriving DecidableEq, Repr

/-- Embedding of the AGRICULTURAL_KNOWLEDGE table (server.js lines 209-255),
in document order of the object literal, with the exact keyword and response
strings of the source. -/
def AGRICULTURAL_KNOWLEDGE : List KnowledgeCategory := [
  { name := "soil_health",
    keywords := ["soil", "fertilizer", "nutrients", "ph", "compost", "manure"],
    responses := [
      "Healthy soil should have a pH between 6.0-7.0 for most crops. Test your soil annually and add organic matter regularly.",
      "For nutrient deficiencies, consider balanced NPK fertilizers. Nitrogen for leaf growth, Phosphorus for roots, Potassium for overall health.",
      "Compost improves soil structure, water retention, and microbial activity. Apply 2-4 inches of compost annually.",
      "Crop rotation helps maintain soil health and reduces pest buildup. Rotate between different plant families each season."
    ] },
  { name := "pest_control",
    keywords := ["pest", "insect", "bug", "worm", "disease", "fungus", "bacteria"],
    responses := [
      "Integrated Pest Management (IPM) combines cultural, biological, and chemical controls. Start with prevention and monitoring.",
      "Beneficial insects like ladybugs, lacewings, and parasitic wasps help control pests naturally. Plant flowers to attract them.",
      "For fungal diseases, ensure proper air circulation, avoid overhead watering, and apply copper-based fungicides if needed.",
      "Neem oil is effective against many pests and diseases. Mix 2 tablespoons per gallon of water and spray weekly."
    ] },
  { name := "water_management",
    keywords := ["water", "irrigation", "drainage", "moisture", "drought", "flood"],
    responses := [
      "Water deeply but infrequently to encourage deep root growth. Most crops need 1-2 inches of water per week.",
      "Drip irrigation saves water and reduces disease risk by keeping foliage dry. Install during dry periods.",
      "Mulching conserves moisture, suppresses weeds, and regulates soil temperature. Apply 2-4 inches around plants.",
      "Good drainage is crucial. Raised beds or contour planting can help prevent waterlogging in heavy soils."
    ] },
  { name := "crop_selection",
    keywords := ["crop", "plant", "variety", "seed", "sowing", "planting", "harvest"],
    responses := [
      "Choose crop varieties suited to your climate, soil type, and market demand. Check local growing calendars.",
      "Heirloom varieties offer unique flavors and genetic diversity, while hybrids provide uniformity and disease resistance.",
      "Direct seeding works for crops like beans, carrots, and lettuce. Transplants give a head start for tomatoes and peppers.",
      "Succession planting every 2-3 weeks ensures continuous harvest of crops like lettuce, radishes, and beans."
    ] },
  { name := "weather_climate",
    keywords := ["weather", "climate", "season", "temperature", "rain", "frost"],
    responses := [
      "Monitor weather forecasts regularly. Prepare for extreme conditions with protective covers or irrigation.",
      "Frost-sensitive crops need protection when temperatures drop below 32°F (0°C). Use row covers or cold frames.",
      "High temperatures above 90°F (32°C) can stress plants. Provide shade and increase watering frequency.",
      "Season extension techniques like greenhouses, cold frames, and row covers allow year-round production."
    ] }
]

/-- Default fallback response of getFallbackResponse (server.js line 270). -/
def DEFAULT_FALLBACK : String :=
  "I\x27m here to help with farming questions! You can ask me about soil health, pest control, water management, crop selection, or weather conditions. What would you like to know?"

/-- Category test of the getFallbackResponse loop body: some keyword of the
category occurs in the lower-cased query. -/
def categoryMatches (lowerQuery : List Char) (c : KnowledgeCategory) : Bool :=
  c.keywords.any (fun k => includesSeq k.data lowerQuery)

/-- Loop of getFallbackResponse over the table entries, with the random draw
`rand` abstracting `Math.random()`: the chosen index is `rand % length`,
matching the uniform pick `Math.floor(Math.random() * responses.length)`. -/
def scanKnowledge (lowerQuery : List Char) (rand : Nat) : List KnowledgeCategory → String
  | [] => DEFAULT_FALLBACK
  | c :: rest =>
    if categoryMatches lowerQuery c then
      c.responses.getD (rand % c.responses.length) ""
    else scanKnowledge lowerQuery rand rest

/-- Embedding of getFallbackResponse (server.js lines 258-271). -/
def getFallbackResponse (query : String) (rand : Nat) : String :=
  scanKnowledge (lowerChars query) rand AGRICULTURAL_KNOWLEDGE

/-- Entry of ChatSession.messages: role, content, and the metadata written for
assistant entries (source tag and model tag). -/
structure ChatMessage where
  role : String
  content : String
  metaSource : Option String := none
  metaModel : Option String := none
deriving DecidableEq, Repr

/-- ChatSession document: id, owning user, and the ordered message list. -/
structure ChatSession where
  sid : Nat
  user : Nat
  messages : List ChatMessage
deriving DecidableEq, Repr

/-- Message of the provider request sent to openai.chat.completions.create. -/
structure ProviderMsg where
  role : String
  content : String
deriving DecidableEq, Repr

/-- System instruction content of the provider request (server.js line 318):
fixed persona text around the requested language. -/
def systemPrompt (language : String) : String :=
  "You are an agricultural expert assistant. Provide helpful, accurate farming advice in "
    ++ language
    ++ ". Be concise but informative. Focus on practical solutions that farmers can implement."

/-- System message of the provider request. -/
def providerSystemMsg (language : String) : ProviderMsg :=
  ⟨"system", systemPrompt language⟩

/-- Projection of a persisted message into a provider request message
(server.js lines 320-323). -/
def toProviderMsg (m : ChatMessage) : ProviderMsg :=
  ⟨m.role, m.content⟩

/-- Model of ChatSession.findById: lookup by id only, with no owner filter,
exactly as the chat route does (server.js line 290). -/
def findById (store : List ChatSession) (sid : Nat) : Option ChatSession :=
  store.find? (fun s => s.sid == sid)

/-- Session resolution of the chat route (server.js lines 288-298): load by id
when a session id is supplied and resolves, else create a fresh empty session
owned by the caller.  Returns the session and whether it is freshly created. -/
def resolveSession (owner : Nat) (sessionId : Option Nat) (freshId : Nat)
    (store : List ChatSession) : ChatSession × Bool :=
  match sessionId.bind (findById store) with
  | some s => (s, false)
  | none => (⟨freshId, owner, []⟩, true)

/-- Model of session.save(): append a freshly created session, or replace the
stored session with the same id. -/
def saveSession (store : List ChatSession) (isNew : Bool) (s : ChatSession) :
    List ChatSession :=
  if isNew then store ++ [s]
  else store.map (fun t => if t.sid == s.sid then s else t)

/-- Outcome of a successful POST /api/chatbot/chat call: the JSON response
fields, the provider request actually sent (`none` when the provider was not
invoked), the saved session, and the store after the save. -/
structure ChatOutcome where
  response : String
  sessionId : Nat
  messageCount : Nat
  responseSource : String
  providerRequest : Option (List ProviderMsg)
  session : ChatSession
  store : List ChatSession
deriving DecidableEq, Repr

/-- Provider phase of the chat route (server.js lines 310-344): with a
configured credential the completion call is made with the built request and a
thrown error falls back to the local responder; without a credential the
provider is not invoked at all.  Returns the reply text, the response source
tag, and the request actually sent (`none` when not invoked). -/
def chatPick (hasApiKey : Bool) (providerOutcome : Except Unit String)
    (request : List ProviderMsg) (fallback : String) :
    String × String × Option (List ProviderMsg) :=
  if hasApiKey then
    match providerOutcome with
    | .ok text => (text, "openai", some request)
    | .error _ => (fallback, "local", some request)
  else (fallback, "local", none)

/-- Chat turn of POST /api/chatbot/chat after the message validation
(server.js lines 287-367): resolve the session, append the user message,
build the provider request from the session messages as they stand after that
push, run the provider phase, append the assistant message with its metadata,
and save the session once with both entries. -/
def sendMessageTurn (owner : Nat) (msg : String) (sessionId : Option Nat)
    (language : String) (hasApiKey : Bool) (providerOutcome : Except Unit String)
    (rand : Nat) (freshId : Nat) (store : List ChatSession) : ChatOutcome :=
  let resolved := resolveSession owner sessionId freshId store
  let session0 := resolved.1
  let userEntry : ChatMessage := ⟨"user", msg, none, none⟩
  let session1 : ChatSession := ⟨session0.sid, session0.user, session0.messages ++ [userEntry]⟩
  let request : List ProviderMsg :=
    providerSystemMsg language ::
      ((sliceLast 10 session1.messages).map toProviderMsg ++ [⟨"user", msg⟩])
  let picked := chatPick hasApiKey providerOutcome request (getFallbackResponse msg rand)
  let botResponse := picked.1
  let responseSource := picked.2.1
  let assistantEntry : ChatMessage :=
    ⟨"assistant", botResponse, some responseSource,
      some (if responseSource == "openai" then "gpt-3.5-turbo" else "local-knowledge")⟩
  let session2 : ChatSession := ⟨session1.sid, session1.user, session1.messages ++ [assistantEntry]⟩
  { response := botResponse
    sessionId := session2.sid
    messageCount := session2.messages.length
    responseSource := responseSource
    providerRequest := picked.2.2
    session := session2
    store := saveSession store resolved.2 session2 }

/-- Embedding of POST /api/chatbot/chat (server.js lines 276-372).  `none`
models the 400 validation response for a missing or empty message (the
`if (!message)` guard).  `hasApiKey` models the truthiness of
process.env.OPENAI_API_KEY, `providerOutcome` the completion call (reply text
or thrown error), `rand` the fallback draw and `freshId` the id assigned to a
freshly created session. -/
def sendMessage (owner : Nat) (message : Option String) (sessionId : Option Nat)
    (language : String) (hasApiKey : Bool) (providerOutcome : Except Unit String)
    (rand : Nat) (freshId : Nat) (store : List ChatSession) : Option ChatOutcome :=
  match message with
  | none => none
  | some msg =>
    if msg == "" then none
    else some (sendMessageTurn owner msg sessionId language hasApiKey providerOutcome
      rand freshId store)

/-- Structured payload stored on a completed analysis (the fields of
convertToAgriculturalAnalysis that the lifecycle reads are opaque here; a
representative health score and condition stand for the payload). -/
structure AnalysisPayload where
  healthScore : Nat
  condition : String
deriving DecidableEq, Repr

/-- ImageAnalysis document as the analyze route reads and writes it: id,
owning user, status string, optional result payload, optional error message
and optional processing time. -/
structure AnalysisRecord where
  rid : Nat
  user : Nat
  status : String
  analysis : Option AnalysisPayload := none
  errorMessage : Option String := none
  processingTime : Option Nat := none
deriving DecidableEq, Repr

/-- Response of POST /api/ai/analyze/:analysisId: 404, the idempotent
short-circuit for a completed record, a freshly analyzed record, or the 500
failure response carrying the classifier error message. -/
inductive AnalyzeResp where
  | notFound
  | alreadyCompleted (record : AnalysisRecord)
  | analyzed (record : AnalysisRecord)
  | aiFailed (errMsg : String)
deriving DecidableEq, Repr

/-- Outcome of an analyze call: the response, the record store after all
saves, and whether the classifier (analyzeImageWithAI) was invoked. -/
structure AnalyzeOutcome where
  resp : AnalyzeResp
  store : List AnalysisRecord
  classifierInvoked : Bool
deriving DecidableEq, Repr

/-- Model of saving a record: replace the stored record with the same id. -/
def updateRecord (store : List AnalysisRecord) (r : AnalysisRecord) :
    List AnalysisRecord :=
  store.map (fun s => if s.rid == r.rid then r else s)

/-- Embedding of POST /api/ai/analyze/:analysisId (ai.js lines 186-252).
`classifier` is the analyzeImageWithAI oracle (result payload or thrown
error), `procTime` the measured elapsed seconds. -/
def analyze (owner rid : Nat) (classifier : Except String AnalysisPayload)
    (procTime : Nat) (store : List AnalysisRecord) : AnalyzeOutcome :=
  match store.find? (fun r => r.rid == rid && r.user == owner) with
  | none => ⟨.notFound, store, false⟩
  | some found =>
    if found.status == "completed" then ⟨.alreadyCompleted found, store, false⟩
    else
      let processing := { found with status := "processing" }
      let store1 := updateRecord store processing
      match classifier with
      | .ok payload =>
        let done := { processing with
          analysis := some payload
          processingTime := some procTime
          status := "completed" }
        ⟨.analyzed done, updateRecord store1 done, true⟩
      | .error emsg =>
        let failed := { processing with status := "failed", errorMessage := some emsg }
        ⟨.aiFailed emsg, updateRecord store1 failed, true⟩

/-- Profile location subdocument of the User model as the upload route reads
it: `coordinates` stores the pair in MongoDB order (longitude, latitude),
plus the optional address, city and country strings. -/
structure UserLocation where
  coordinates : Int × Int
  address : Option String := none
  city : Option String := none
  country : Option String := none
deriving DecidableEq, Repr

/-- Location written into the created record metadata: possibly-null
latitude, longitude and address. -/
structure FinalLocation where
  latitude : Option Int := none
  longitude : Option Int := none
  address : Option String := none
deriving DecidableEq, Repr

/-- Model of String.prototype.trim on the address template. -/
def jsTrim (s : String) : String :=
  ⟨(s.data.dropWhile Char.isWhitespace).reverse.dropWhile Char.isWhitespace |>.reverse⟩

/-- Address derived from the profile location (images.js line 88):
`user.location.address || trimmed "city, country" template`, where an absent
or empty address falls through to the template. -/
def profileAddress (ul : UserLocation) : String :=
  let a := ul.address.getD ""
  if a == "" then jsTrim ((ul.city.getD "") ++ ", " ++ (ul.country.getD ""))
  else a

/-- Model of `location || null` on the optional body field: an absent or
empty string yields null. -/
def jsOrNull (location : Option String) : Option String :=
  match location with
  | some l => if l == "" then none else some l
  | none => none

/-- Embedding of the finalLocation resolution of POST /api/images/upload
(images.js lines 62-92).  `latitude`/`longitude` are the body fields (absent
or empty modelled as `none`), `userLoc` the optional profile location whose
optional chain `user?.location?.coordinates?.[0]` the condition reads.
`Except.error ()` models the thrown TypeError when the condition passes on an
absent chain (undefined !== 0) and the branch body then dereferences
`user.location.coordinates`. -/
def resolveFinalLocation (latitude longitude : Option Int) (location : Option String)
    (useProfileLocation : String) (userLoc : Option UserLocation) :
    Except Unit FinalLocation :=
  if latitude.isSome && longitude.isSome then
    .ok { latitude := latitude, longitude := longitude,
          address := jsOrNull location }
  else if useProfileLocation == "true"
      && (userLoc.map (fun ul => ul.coordinates.1)) != some 0 then
    match userLoc with
    | none => .error ()
    | some ul =>
      .ok { latitude := some ul.coordinates.2, longitude := some ul.coordinates.1,
            address := some (profileAddress ul) }
  else .ok { latitude := none, longitude := none, address := none }

/-- Uploaded file as multer presents it: the lower-cased extension test input,
mimetype, stored filename, disk path and size. -/
structure FileInfo where
  extname : String
  mimetype : String
  filename : String
  path : String
  size : Nat
deriving DecidableEq, Repr

/-- Test of the regex /jpeg|jpg|png|gif|webp/ via `.test(s)`: some alternative
occurs as a substring of `s`. -/
def allowedTypeTest (s : String) : Bool :=
  (["jpeg", "jpg", "png", "gif", "webp"]).any (fun t => strIncludes s t)

/-- Embedding of the multer fileFilter (images.js lines 28-38): both the
lower-cased extension of the original name and the mimetype must pass the
allowed-types regex test. -/
def fileFilter (f : FileInfo) : Bool :=
  allowedTypeTest (jsToLower f.extname) && allowedTypeTest f.mimetype

/-- ImageAnalysis record created by the upload route: owner, originalImage
fields, resolved location and the schema-default status.  The status default
is modelled from the spec: the ImageAnalysis schema (models/ImageAnalysis.js,
not under src/) creates records in `pending`. -/
structure ImageRecord where
  user : Nat
  filename : String
  url : String
  path : String
  size : Nat
  mimetype : String
  location : FinalLocation
  status : String
deriving DecidableEq, Repr

/-- Outcome of POST /api/images/upload: the multer fileFilter rejection, the
400 response for a missing file, a created record, or the caught-error path.
Each constructor carries the binary-store contents (list of stored file
paths) after the call. -/
inductive UploadOutcome where
  | fileRejected (files : List String)
  | noFile (files : List String)
  | created (record : ImageRecord) (files : List String)
  | errored (files : List String)
deriving DecidableEq, Repr

/-- Embedding of POST /api/images/upload (images.js lines 53-131).  The
multer stage runs first: a missing file reaches the handler as `none` and a
file failing fileFilter is rejected before being written to disk.  An
accepted file is persisted, then the location is resolved and the record
created; `createFails` is the oracle for ImageAnalysis.create throwing.  Any
error caught by the handler deletes the uploaded file (the catch block,
images.js lines 124-130). -/
def upload (owner : Nat) (file : Option FileInfo) (latitude longitude : Option Int)
    (location : Option String) (useProfileLocation : String)
    (userLoc : Option UserLocation) (createFails : Bool) (files : List String) :
    UploadOutcome :=
  match file with
  | none => .noFile files
  | some f =>
    if fileFilter f then
      let files1 := files ++ [f.path]
      match resolveFinalLocation latitude longitude location useProfileLocation userLoc with
      | .error _ => .errored (files1.erase f.path)
      | .ok loc =>
        if createFails then .errored (files1.erase f.path)
        else
          .created
            { user := owner, filename := f.filename,
              url := "/uploads/images/" ++ f.filename, path := f.path,
              size := f.size, mimetype := f.mimetype,
              location := loc, status := "pending" }
            files1
    else .fileRejected files

/-- Validation guard of sendMessage: a non-empty message reaches the turn. -/
theorem sendMessage_some_of_ne (owner : Nat) (msg : String) (sessionId : Option Nat)
    (language : String) (hasApiKey : Bool) (providerOutcome : Except Unit String)
    (rand freshId : Nat) (store : List ChatSession) (hmsg : msg ≠ "") :
    sendMessage owner (some msg) sessionId language hasApiKey providerOutcome
        rand freshId store =
      some (sendMessageTurn owner msg sessionId language hasApiKey providerOutcome
        rand freshId store) := by
  simp [sendMessage, hmsg]

/-- Record stored by analyze when the classifier succeeds on a record found in
a non-completed status: status completed, the payload and the elapsed time. -/
def analyzeSuccessRecord (found : AnalysisRecord) (payload : AnalysisPayload)
    (procTime : Nat) : AnalysisRecord :=
  { found with
    status := "completed"
    analysis := some payload
    processingTime := some procTime }

/-- Claim C5: analyze on a record whose status is completed is idempotent: the
record is returned with its existing result unchanged, the store is untouched,
and the classifier is not invoked. -/
theorem c5_analyze_completed_idempotent
    (owner rid : Nat) (classifier : Except String AnalysisPayload) (procTime : Nat)
    (store : List AnalysisRecord) (found : AnalysisRecord)
    (hfind : store.find? (fun r => r.rid == rid && r.user == owner) = some found)
    (hstatus : found.status = "completed") :
    analyze owner rid classifier procTime store =
      ⟨.alreadyCompleted found, store, false⟩ := by
  simp [analyze, hfind, hstatus]

/-- Witness for C5: a concrete completed record with a stored result, a
classifier oracle that would throw, and the theorem applied to it. -/
theorem c5_analyze_completed_idempotent_witness :
    (([({ rid := 7, user := 1, status := "completed",
          analysis := some ⟨80, "good"⟩ } : AnalysisRecord)]).find?
        (fun r => r.rid == 7 && r.user == 1) =
      some { rid := 7, user := 1, status := "completed", analysis := some ⟨80, "good"⟩ })
    ∧ analyze 1 7 (Except.error "boom") 3
        [{ rid := 7, user := 1, status := "completed", analysis := some ⟨80, "good"⟩ }] =
      ⟨.alreadyCompleted
          { rid := 7, user := 1, status := "completed", analysis := some ⟨80, "good"⟩ },
        [{ rid := 7, user := 1, status := "completed", analysis := some ⟨80, "good"⟩ }],
        false⟩ :=
  ⟨by decide,
    c5_analyze_completed_idempotent 1 7 (Except.error "boom") 3 _ _ (by decide) (by decide)⟩

/-- Counterexample to C2: a record in status `failed` is not left alone by a
subsequent analyze call — the classifier is re-invoked and the record
transitions out of `failed` to `completed` when the classifier succeeds. -/
theorem c2_counterexample :
    (analyze 1 7 (Except.ok ⟨85, "good"⟩) 2
        [{ rid := 7, user := 1, status := "failed", errorMessage := some "boom" }]).classifierInvoked
      = true
    ∧ (analyze 1 7 (Except.ok ⟨85, "good"⟩) 2
        [{ rid := 7, user := 1, status := "failed", errorMessage := some "boom" }]).store =
      [{ rid := 7, user := 1, status := "completed", analysis := some ⟨85, "good"⟩,
         errorMessage := some "boom", processingTime := some 2 }] := by
  decide

/-- Amended C2: only `completed` is treated as terminal by analyze.  A
completed record is returned unchanged without invoking the classifier, but a
record in any other status — in particular `failed` — is re-processed: the
classifier is invoked again and the record ends `completed` on classifier
success or `failed` again on classifier failure. -/
theorem c2_terminal_only_completed
    (owner rid : Nat) (classifier : Except String AnalysisPayload) (procTime : Nat)
    (store : List AnalysisRecord) (found : AnalysisRecord)
    (hfind : store.find? (fun r => r.rid == rid && r.user == owner) = some found) :
    (found.status = "completed" →
      analyze owner rid classifier procTime store = ⟨.alreadyCompleted found, store, false⟩)
    ∧ (found.status ≠ "completed" →
        (analyze owner rid classifier procTime store).classifierInvoked = true
        ∧ (analyze owner rid classifier procTime store).resp =
            (match classifier with
             | .ok payload => .analyzed (analyzeSuccessRecord found payload procTime)
             | .error emsg => .aiFailed emsg)) := by
  constructor
  · intro h
    simp [analyze, hfind, h]
  · intro h
    cases classifier <;> simp [analyze, hfind, h, analyzeSuccessRecord]

/-- Witness for the amended C2: a concrete failed record satisfying the find
hypothesis, run through the theorem. -/
theorem c2_terminal_only_completed_witness :
    (([({ rid := 7, user := 1, status := "failed",
          errorMessage := some "boom" } : AnalysisRecord)]).find?
        (fun r => r.rid == 7 && r.user == 1) =
      some { rid := 7, user := 1, status := "failed", errorMessage := some "boom" })
    ∧ (analyze 1 7 (Except.ok ⟨85, "good"⟩) 2
        [{ rid := 7, user := 1, status := "failed", errorMessage := some "boom" }]).classifierInvoked
      = true :=
  ⟨by decide,
    ((c2_terminal_only_completed 1 7 (Except.ok ⟨85, "good"⟩) 2
        [{ rid := 7, user := 1, status := "failed", errorMessage := some "boom" }]
        { rid := 7, user := 1, status := "failed", errorMessage := some "boom" }
        (by decide)).2 (by decide)).1⟩

/-- Claim C1 failing input evaluated: caller user 1 sends "hi" with sessionId
5 while session 5 exists, is owned by user 2, and is empty.  The route loads
the session by id alone (ChatSession.findById carries no owner filter) and
appends both turn messages to user 2's session: the saved session keeps sid 5
and owner 2 and now holds the caller's user message and the assistant reply,
and no new session owned by the caller is created. -/
theorem c1_cross_user_append :
    sendMessage 1 (some "hi") (some 5) "en" false (Except.error ()) 0 9
        [⟨5, 2, []⟩] =
      some { response := DEFAULT_FALLBACK, sessionId := 5, messageCount := 2,
             responseSource := "local", providerRequest := none,
             session := ⟨5, 2, [⟨"user", "hi", none, none⟩,
               ⟨"assistant", DEFAULT_FALLBACK, some "local", some "local-knowledge"⟩]⟩,
             store := [⟨5, 2, [⟨"user", "hi", none, none⟩,
               ⟨"assistant", DEFAULT_FALLBACK, some "local", some "local-knowledge"⟩]⟩] } := by
  rfl

/-- Messages of the session saved by a chat turn: the resolved session's
messages with exactly the user entry and then the assistant entry appended. -/
theorem sendMessageTurn_messages (owner : Nat) (msg : String) (sessionId : Option Nat)
    (language : String) (hasApiKey : Bool) (providerOutcome : Except Unit String)
    (rand freshId : Nat) (store : List ChatSession) :
    (sendMessageTurn owner msg sessionId language hasApiKey providerOutcome
        rand freshId store).session.messages =
      (resolveSession owner sessionId freshId store).1.messages ++
        [⟨"user", msg, none, none⟩,
         ⟨"assistant",
           (sendMessageTurn owner msg sessionId language hasApiKey providerOutcome
             rand freshId store).response,
           some (sendMessageTurn owner msg sessionId language hasApiKey providerOutcome
             rand freshId store).responseSource,
           some (if (sendMessageTurn owner msg sessionId language hasApiKey providerOutcome
               rand freshId store).responseSource == "openai"
             then "gpt-3.5-turbo" else "local-knowledge")⟩] := by
  simp [sendMessageTurn]

/-- Length consequence: a chat turn grows the session by exactly 2 entries. -/
theorem sendMessageTurn_messages_length (owner : Nat) (msg : String)
    (sessionId : Option Nat) (language : String) (hasApiKey : Bool)
    (providerOutcome : Except Unit String) (rand freshId : Nat)
    (store : List ChatSession) :
    (sendMessageTurn owner msg sessionId language hasApiKey providerOutcome
        rand freshId store).session.messages.length =
      (resolveSession owner sessionId freshId store).1.messages.length + 2 := by
  rw [sendMessageTurn_messages]
  simp

/-- Formalisation of claim C3's stated request shape: the system instruction,
then at most the last 10 messages persisted before this turn, then exactly one
copy of the new user message. -/
def claimedProviderRequest (prior : List ChatMessage) (msg language : String) :
    List ProviderMsg :=
  providerSystemMsg language ::
    ((sliceLast 10 prior).map toProviderMsg ++ [⟨"user", msg⟩])

set_option maxRecDepth 8192 in
/-- Counterexample to C3: on a fresh session (no messages persisted before the
turn) with message "hi", the request actually sent contains the new user
message twice — the slice is taken after the user message was pushed — so it
differs from the claimed shape, which would hold exactly one copy. -/
theorem c3_counterexample :
    (sendMessage 1 (some "hi") none "en" true (Except.ok "reply") 0 9 []) =
      some { response := "reply", sessionId := 9, messageCount := 2,
             responseSource := "openai",
             providerRequest :=
               some [providerSystemMsg "en", ⟨"user", "hi"⟩, ⟨"user", "hi"⟩],
             session := ⟨9, 1, [⟨"user", "hi", none, none⟩,
               ⟨"assistant", "reply", some "openai", some "gpt-3.5-turbo"⟩]⟩,
             store := [⟨9, 1, [⟨"user", "hi", none, none⟩,
               ⟨"assistant", "reply", some "openai", some "gpt-3.5-turbo"⟩]⟩] }
    ∧ [providerSystemMsg "en", ⟨"user", "hi"⟩, ⟨"user", "hi"⟩] ≠
        claimedProviderRequest [] "hi" "en" := by
  constructor
  · rfl
  · decide

/-- Amended C3: the provider request is the system instruction (fixed persona
plus requested language), followed by the last at most 10 messages of the
session as they stand after the new user message has been appended (hence at
most 9 messages persisted before this turn, then the new user message),
followed by a second copy of the new user message. -/
theorem c3_provider_request_shape
    (owner : Nat) (msg : String) (sessionId : Option Nat) (language : String)
    (providerOutcome : Except Unit String) (rand freshId : Nat)
    (store : List ChatSession) (hmsg : msg ≠ "") :
    sendMessage owner (some msg) sessionId language true providerOutcome
        rand freshId store =
      some (sendMessageTurn owner msg sessionId language true providerOutcome
        rand freshId store)
    ∧ (sendMessageTurn owner msg sessionId language true providerOutcome
        rand freshId store).providerRequest =
      some (providerSystemMsg language ::
        ((sliceLast 10 ((resolveSession owner sessionId freshId store).1.messages
            ++ [⟨"user", msg, none, none⟩])).map toProviderMsg
          ++ [⟨"user", msg⟩])) := by
  refine ⟨sendMessage_some_of_ne owner msg sessionId language true providerOutcome
    rand freshId store hmsg, ?_⟩
  cases providerOutcome <;> rfl

/-- Witness for the amended C3 at a concrete call. -/
theorem c3_provider_request_shape_witness :
    ("hi" ≠ "")
    ∧ (sendMessage 1 (some "hi") none "en" true (Except.ok "reply") 0 9 [] =
        some (sendMessageTurn 1 "hi" none "en" true (Except.ok "reply") 0 9 [])
      ∧ (sendMessageTurn 1 "hi" none "en" true (Except.ok "reply") 0 9 []).providerRequest =
        some (providerSystemMsg "en" ::
          ((sliceLast 10 ((resolveSession 1 none 9 []).1.messages
              ++ [⟨"user", "hi", none, none⟩])).map toProviderMsg
            ++ [⟨"user", "hi"⟩]))) :=
  ⟨by decide, c3_provider_request_shape 1 "hi" none "en" (Except.ok "reply") 0 9 [] (by decide)⟩

/-- Claim C6: the overall chat request never fails because of the provider.
Without a credential the provider is not invoked at all (no request is built
or sent) and the reply is the Local Responder output tagged local; with a
credential and a throwing provider the error is absorbed and the reply is the
Local Responder output tagged local; in both cases the call succeeds. -/
theorem c6_provider_failure_absorbed
    (owner : Nat) (msg : String) (sessionId : Option Nat) (language : String)
    (providerOutcome : Except Unit String) (rand freshId : Nat)
    (store : List ChatSession) (hmsg : msg ≠ "") :
    (sendMessage owner (some msg) sessionId language false providerOutcome
        rand freshId store =
        some (sendMessageTurn owner msg sessionId language false providerOutcome
          rand freshId store)
      ∧ (sendMessageTurn owner msg sessionId language false providerOutcome
          rand freshId store).providerRequest = none
      ∧ (sendMessageTurn owner msg sessionId language false providerOutcome
          rand freshId store).responseSource = "local"
      ∧ (sendMessageTurn owner msg sessionId language false providerOutcome
          rand freshId store).response = getFallbackResponse msg rand)
    ∧ (sendMessage owner (some msg) sessionId language true (Except.error ())
        rand freshId store =
        some (sendMessageTurn owner msg sessionId language true (Except.error ())
          rand freshId store)
      ∧ (sendMessageTurn owner msg sessionId language true (Except.error ())
          rand freshId store).responseSource = "local"
      ∧ (sendMessageTurn owner msg sessionId language true (Except.error ())
          rand freshId store).response = getFallbackResponse msg rand) :=
  ⟨⟨sendMessage_some_of_ne owner msg sessionId language false providerOutcome
      rand freshId store hmsg, rfl, rfl, rfl⟩,
   ⟨sendMessage_some_of_ne owner msg sessionId language true (Except.error ())
      rand freshId store hmsg, rfl, rfl⟩⟩

/-- Witness for C6 at a concrete call with the message "fertilizer". -/
theorem c6_provider_failure_absorbed_witness :
    ("fertilizer" ≠ "")
    ∧ ((sendMessage 1 (some "fertilizer") none "en" false (Except.ok "x") 0 9 [] =
        some (sendMessageTurn 1 "fertilizer" none "en" false (Except.ok "x") 0 9 [])
      ∧ (sendMessageTurn 1 "fertilizer" none "en" false (Except.ok "x") 0 9 []).providerRequest = none
      ∧ (sendMessageTurn 1 "fertilizer" none "en" false (Except.ok "x") 0 9 []).responseSource = "local"
      ∧ (sendMessageTurn 1 "fertilizer" none "en" false (Except.ok "x") 0 9 []).response =
          getFallbackResponse "fertilizer" 0)
    ∧ (sendMessage 1 (some "fertilizer") none "en" true (Except.error ()) 0 9 [] =
        some (sendMessageTurn 1 "fertilizer" none "en" true (Except.error ()) 0 9 [])
      ∧ (sendMessageTurn 1 "fertilizer" none "en" true (Except.error ()) 0 9 []).responseSource = "local"
      ∧ (sendMessageTurn 1 "fertilizer" none "en" true (Except.error ()) 0 9 []).response =
          getFallbackResponse "fertilizer" 0)) :=
  ⟨by decide, c6_provider_failure_absorbed 1 "fertilizer" none "en" (Except.ok "x") 0 9 [] (by decide)⟩

/-- Claim C7: every successful sendMessage call appends exactly two entries to
the session's messages — the user entry then the assistant entry — persisted
together by the single session save, so the session length grows by exactly 2
(and in particular is monotonically non-decreasing: the prior messages are a
prefix of the saved ones). -/
theorem c7_turn_appends_exactly_two
    (owner : Nat) (msg : String) (sessionId : Option Nat) (language : String)
    (hasApiKey : Bool) (providerOutcome : Except Unit String) (rand freshId : Nat)
    (store : List ChatSession) (hmsg : msg ≠ "") :
    sendMessage owner (some msg) sessionId language hasApiKey providerOutcome
        rand freshId store =
      some (sendMessageTurn owner msg sessionId language hasApiKey providerOutcome
        rand freshId store)
    ∧ (sendMessageTurn owner msg sessionId language hasApiKey providerOutcome
        rand freshId store).session.messages =
      (resolveSession owner sessionId freshId store).1.messages ++
        [⟨"user", msg, none, none⟩,
         ⟨"assistant",
           (sendMessageTurn owner msg sessionId language hasApiKey providerOutcome
             rand freshId store).response,
           some (sendMessageTurn owner msg sessionId language hasApiKey providerOutcome
             rand freshId store).responseSource,
           some (if (sendMessageTurn owner msg sessionId language hasApiKey providerOutcome
               rand freshId store).responseSource == "openai"
             then "gpt-3.5-turbo" else "local-knowledge")⟩]
    ∧ (sendMessageTurn owner msg sessionId language hasApiKey providerOutcome
        rand freshId store).session.messages.length =
      (resolveSession owner sessionId freshId store).1.messages.length + 2
    ∧ (sendMessageTurn owner msg sessionId language hasApiKey providerOutcome
        rand freshId store).store =
      saveSession store (resolveSession owner sessionId freshId store).2
        (sendMessageTurn owner msg sessionId language hasApiKey providerOutcome
          rand freshId store).session :=
  ⟨sendMessage_some_of_ne owner msg sessionId language hasApiKey providerOutcome
      rand freshId store hmsg,
   sendMessageTurn_messages owner msg sessionId language hasApiKey providerOutcome
      rand freshId store,
   sendMessageTurn_messages_length owner msg sessionId language hasApiKey providerOutcome
      rand freshId store,
   rfl⟩

/-- Witness for C7 at a concrete call. -/
theorem c7_turn_appends_exactly_two_witness :
    ("hello" ≠ "")
    ∧ (sendMessageTurn 3 "hello" none "en" false (Except.ok "x") 1 4 []).session.messages.length =
        (resolveSession 3 none 4 []).1.messages.length + 2 :=
  ⟨by decide,
    (c7_turn_appends_exactly_two 3 "hello" none "en" false (Except.ok "x") 1 4 []
      (by decide)).2.2.1⟩

/-- Claim C10: sendMessage is rejected with the validation error exactly when
the message field is absent or the empty string; a whitespace-only message
such as " " passes validation and produces a complete turn appending both a
user and an assistant entry (session length + 2). -/
theorem c10_message_validation
    (owner : Nat) (sessionId : Option Nat) (language : String) (hasApiKey : Bool)
    (providerOutcome : Except Unit String) (rand freshId : Nat)
    (store : List ChatSession) :
    (∀ message : Option String,
      sendMessage owner message sessionId language hasApiKey providerOutcome
          rand freshId store = none
        ↔ (message = none ∨ message = some ""))
    ∧ sendMessage owner (some " ") sessionId language hasApiKey providerOutcome
        rand freshId store =
      some (sendMessageTurn owner " " sessionId language hasApiKey providerOutcome
        rand freshId store)
    ∧ (sendMessageTurn owner " " sessionId language hasApiKey providerOutcome
        rand freshId store).session.messages.length =
      (resolveSession owner sessionId freshId store).1.messages.length + 2 := by
  refine ⟨?_, sendMessage_some_of_ne owner " " sessionId language hasApiKey
    providerOutcome rand freshId store (by decide),
    sendMessageTurn_messages_length owner " " sessionId language hasApiKey
      providerOutcome rand freshId store⟩
  intro message
  cases message with
  | none => simp [sendMessage]
  | some msg =>
    by_cases h : msg = ""
    · subst h
      simp [sendMessage]
    · simp [sendMessage, h]

/-- First table category with a keyword occurring in the lower-cased query:
the find?-style specification of the getFallbackResponse scan. -/
def firstMatchingCategory (lowerQuery : List Char) : Option KnowledgeCategory :=
  AGRICULTURAL_KNOWLEDGE.find? (categoryMatches lowerQuery)

/-- Loop-versus-specification equivalence for the fallback scan: the loop
returns the pick from the first matching category of the scanned list, and
the default response when none matches. -/
theorem scanKnowledge_eq_find (q : List Char) (r : Nat) :
    ∀ L : List KnowledgeCategory,
      scanKnowledge q r L =
        (match L.find? (categoryMatches q) with
         | none => DEFAULT_FALLBACK
         | some c => c.responses.getD (r % c.responses.length) "")
  | [] => by simp [scanKnowledge]
  | c :: L => by
    by_cases h : categoryMatches q c
    · simp [scanKnowledge, List.find?_cons_of_pos, h]
    · simp [scanKnowledge, List.find?_cons_of_neg, h, scanKnowledge_eq_find q r L]

/-- Claim C8: the Local Responder lower-cases the text, scans the category
table in document order (soil_health, pest_control, water_management,
crop_selection, weather_climate), answers from the first category having some
keyword occurring in the lower-cased text, and falls back to the single fixed
default response when no category matches.  The choice within the matched
category is the uniform pick: every category holds 4 candidates, the draw is
taken modulo 4, and every candidate is attained.  The responder is a Lean
function of exactly the text and the random draw, hence pure in them. -/
theorem c8_fallback_responder (query : String) (rand : Nat) :
    getFallbackResponse query rand =
      (match firstMatchingCategory (lowerChars query) with
       | none => DEFAULT_FALLBACK
       | some c => c.responses.getD (rand % c.responses.length) "")
    ∧ AGRICULTURAL_KNOWLEDGE.map KnowledgeCategory.name =
        ["soil_health", "pest_control", "water_management", "crop_selection",
         "weather_climate"]
    ∧ (∀ c, firstMatchingCategory (lowerChars query) = some c →
        c.responses.length = 4
        ∧ ∀ i, i < 4 → getFallbackResponse query (4 * rand + i) = c.responses.getD i "") := by
  refine ⟨scanKnowledge_eq_find (lowerChars query) rand AGRICULTURAL_KNOWLEDGE,
    by decide, ?_⟩
  intro c hc
  have hmem : c ∈ AGRICULTURAL_KNOWLEDGE := List.mem_of_find?_eq_some hc
  have hall : ∀ x ∈ AGRICULTURAL_KNOWLEDGE, x.responses.length = 4 := by decide
  have hlen : c.responses.length = 4 := hall c hmem
  refine ⟨hlen, ?_⟩
  intro i hi
  have heq := scanKnowledge_eq_find (lowerChars query) (4 * rand + i) AGRICULTURAL_KNOWLEDGE
  rw [getFallbackResponse, heq]
  simp only [firstMatchingCategory] at hc
  rw [hc]
  show c.responses.getD ((4 * rand + i) % c.responses.length) "" = c.responses.getD i ""
  rw [hlen]
  have hmod : (4 * rand + i) % 4 = i := by omega
  rw [hmod]

set_option maxRecDepth 8192 in
/-- Witness for C8: the query "What FERTILIZER should I use?" matches the
soil_health category (first in document order) through the keyword
fertilizer, and the draw selecting index 2 returns that category's third
candidate string, obtained by applying the theorem. -/
theorem c8_fallback_responder_witness :
    getFallbackResponse "What FERTILIZER should I use?" 10 =
      "Compost improves soil structure, water retention, and microbial activity. Apply 2-4 inches of compost annually." := by
  have h := ((c8_fallback_responder "What FERTILIZER should I use?" 2).2.2
    { name := "soil_health",
      keywords := ["soil", "fertilizer", "nutrients", "ph", "compost", "manure"],
      responses := [
        "Healthy soil should have a pH between 6.0-7.0 for most crops. Test your soil annually and add organic matter regularly.",
        "For nutrient deficiencies, consider balanced NPK fertilizers. Nitrogen for leaf growth, Phosphorus for roots, Potassium for overall health.",
        "Compost improves soil structure, water retention, and microbial activity. Apply 2-4 inches of compost annually.",
        "Crop rotation helps maintain soil health and reduces pest buildup. Rotate between different plant families each season."
      ] } (by decide)).2 2 (by decide)
  have h10 : (4 * 2 + 2 : Nat) = 10 := by norm_num
  rw [h10] at h
  rw [h]
  rfl

/-- Formalisation of claim C4's stated three-tier location policy, following
the claim's words: explicit coordinates win; otherwise the owner's profile
default location is used if and only if it is present and non-zero; otherwise
the record carries no location (and location resolution never fails). -/
def claimedLocationPolicy (latitude longitude : Option Int)
    (userLoc : Option UserLocation) (res : Except Unit FinalLocation) : Bool :=
  match res with
  | .error _ => false
  | .ok loc =>
    if latitude.isSome && longitude.isSome then
      loc.latitude == latitude && loc.longitude == longitude
    else
      match userLoc with
      | some ul =>
        if ul.coordinates != ((0 : Int), (0 : Int)) then
          loc.latitude == some ul.coordinates.2 && loc.longitude == some ul.coordinates.1
        else
          loc.latitude == none && loc.longitude == none
      | none => loc.latitude == none && loc.longitude == none

/-- Counterexample to C4: with no explicit coordinates and a present, non-zero
profile location whose stored pair is (longitude 0, latitude 5), the route
writes no location — the condition inspects only coordinates[0] — violating
the claimed policy that a present and non-zero profile location is used. -/
theorem c4_counterexample :
    resolveFinalLocation none none none "true"
        (some { coordinates := ((0 : Int), (5 : Int)) }) =
      .ok { latitude := none, longitude := none, address := none }
    ∧ claimedLocationPolicy none none
        (some { coordinates := ((0 : Int), (5 : Int)) })
        (resolveFinalLocation none none none "true"
          (some { coordinates := ((0 : Int), (5 : Int)) })) = false := by
  constructor
  · rfl
  · rfl

/-- Amended C4, characterising the location actually derived: explicit
coordinates win when both are supplied; otherwise, when profile use is not
disabled (useProfileLocation is the default "true"), the profile location is
used if and only if its stored first coordinate — the longitude — is
non-zero, a zero first coordinate yields no location even when the stored
latitude is non-zero, and an absent profile location makes the resolution
fail (the route throws) instead of yielding no location; when profile use is
disabled the record carries no location. -/
theorem c4_location_three_tier
    (latitude longitude : Option Int) (location : Option String)
    (useProfileLocation : String) (userLoc : Option UserLocation) :
    resolveFinalLocation latitude longitude location useProfileLocation userLoc =
      (if latitude.isSome && longitude.isSome then
        .ok { latitude := latitude, longitude := longitude, address := jsOrNull location }
      else if useProfileLocation = "true" then
        match userLoc with
        | none => .error ()
        | some ul =>
          if ul.coordinates.1 = 0 then
            .ok { latitude := none, longitude := none, address := none }
          else
            .ok { latitude := some ul.coordinates.2, longitude := some ul.coordinates.1,
                  address := some (profileAddress ul) }
      else .ok { latitude := none, longitude := none, address := none }) := by
  by_cases h1 : (latitude.isSome && longitude.isSome) = true
  · simp [resolveFinalLocation, h1]
  · cases userLoc with
    | none =>
      by_cases h2 : useProfileLocation = "true" <;>
        simp [resolveFinalLocation, h1, h2]
    | some ul =>
      by_cases h2 : useProfileLocation = "true"
      · by_cases h3 : ul.coordinates.1 = 0 <;>
          simp [resolveFinalLocation, h1, h2, h3]
      · simp [resolveFinalLocation, h1, h2]

/-- Removal of a freshly stored path restores the binary store. -/
theorem erase_fresh_path (p : String) (files : List String) (h : p ∉ files) :
    (files ++ [p]).erase p = files := by
  rw [List.erase_append_right _ h]
  simp

/-- Claim C9: upload fails with the validation error when no binary is
supplied (`noFile`) or when the file fails the accepted-image-type filter
(`fileRejected`, before anything is stored), and it is atomic with respect to
storage: when record creation fails — or the handler throws — after the
binary was persisted, the catch block deletes the binary, so the binary store
is restored and no record is created. -/
theorem c9_upload_validation_and_cleanup
    (owner : Nat) (f : FileInfo) (latitude longitude : Option Int)
    (location : Option String) (useProfileLocation : String)
    (userLoc : Option UserLocation) (createFails : Bool) (files : List String) :
    upload owner none latitude longitude location useProfileLocation userLoc
        createFails files = .noFile files
    ∧ (fileFilter f = false →
        upload owner (some f) latitude longitude location useProfileLocation userLoc
          createFails files = .fileRejected files)
    ∧ (fileFilter f = true → f.path ∉ files →
        (createFails = true
          ∨ resolveFinalLocation latitude longitude location useProfileLocation userLoc
            = .error ()) →
        upload owner (some f) latitude longitude location useProfileLocation userLoc
          createFails files = .errored files) := by
  refine ⟨rfl, ?_, ?_⟩
  · intro h
    simp [upload, h]
  · intro hf hmem hor
    have herase := erase_fresh_path f.path files hmem
    rcases hor with hcf | herr
    · subst hcf
      cases hres : resolveFinalLocation latitude longitude location useProfileLocation userLoc with
      | error e => simp [upload, hf, hres, herase]
      | ok loc => simp [upload, hf, hres, herase]
    · simp [upload, hf, herr, herase]

/-- Concrete accepted upload used by the C9 witness. -/
def pngFile : FileInfo :=
  { extname := ".png"
    mimetype := "image/png"
    filename := "image-1.png"
    path := "/uploads/images/image-1.png"
    size := 100 }

/-- Witness for C9: a concrete png upload whose record creation fails; the
binary store ends exactly as it began. -/
theorem c9_upload_validation_and_cleanup_witness :
    fileFilter pngFile = true
    ∧ upload 1 (some pngFile) none none none "true" none true [] = .errored [] :=
  ⟨by decide,
    (c9_upload_validation_and_cleanup 1 pngFile
      none none none "true" none true []).2.2 (by decide) (by decide) (Or.inl rfl)⟩
